import Mathlib

/-!
Shallow embedding of the port-direction, bend, cutback and pad logic of the
gdsfactory repository (src/gdsfactory/port.py, components/bend_euler.py,
components/cutback_loss.py, components/pad.py), together with theorems
checking the natural-language specification against it.

Python floats are modelled as rationals (ℚ), fallible code as `Except`,
and in-place port renaming as a pure function from port lists to port lists
keyed by a port identity field `pid` (standing for Python object identity).
-/

namespace Gdsfactory

/-- Cardinal direction buckets used by the port classifier (port.py). -/
inductive Dir where
  | E | N | W | S
deriving DecidableEq, Repr

/-- String form of a direction, as used in port names and in the
`direction` argument of `get_ports_facing`. -/
def Dir.str : Dir → String
  | .E => "E"
  | .N => "N"
  | .W => "W"
  | .S => "S"

/-- Nonnegative remainder modulo 360 on rationals, the behaviour of
`numpy.mod(angle, 360)` / Python `angle % 360` for a finite float. -/
def qmod360 (a : ℚ) : ℚ := a - 360 * ⌊a / 360⌋

/-- Bucket assignment for a normalized angle, the if/elif chain appearing in
`rename_ports_by_orientation`, `get_ports_facing` and friends (port.py):
East if angle <= 45 or angle >= 315, then North if 45 <= angle <= 135,
then West if 135 <= angle <= 225, else South. -/
def classifyAngle (m : ℚ) : Dir :=
  if m ≤ 45 ∨ 315 ≤ m then .E
  else if m ≤ 135 ∧ 45 ≤ m then .N
  else if m ≤ 225 ∧ 135 ≤ m then .W
  else .S

/-- Classification used by `rename_ports_by_orientation` (port.py lines
607-622): a port with orientation `None` goes to the South bucket, otherwise
the orientation is reduced modulo 360 and bucketed. -/
def classifyOri (o : Option ℚ) : Dir :=
  match o with
  | some a => classifyAngle (qmod360 a)
  | none => .S

/-- Classification used by `get_ports_facing` (port.py line 445): a port with
orientation `None` is treated as angle 0, otherwise the orientation is
reduced modulo 360; then the same bucket chain is applied. -/
def classifyFacing (o : Option ℚ) : Dir :=
  classifyAngle (match o with | some a => qmod360 a | none => 0)

theorem qmod360_eq_fract (a : ℚ) : qmod360 a = 360 * Int.fract (a / 360) := by
  unfold qmod360
  rw [Int.fract]
  field_simp

theorem qmod360_nonneg (a : ℚ) : 0 ≤ qmod360 a := by
  rw [qmod360_eq_fract]
  have h := Int.fract_nonneg (a / 360)
  linarith

theorem qmod360_lt (a : ℚ) : qmod360 a < 360 := by
  rw [qmod360_eq_fract]
  have h := Int.fract_lt_one (a / 360)
  linarith

theorem qmod360_eq_self {a : ℚ} (h0 : 0 ≤ a) (h1 : a < 360) : qmod360 a = a := by
  unfold qmod360
  have hf : ⌊a / 360⌋ = 0 := by
    apply Int.floor_eq_zero_iff.mpr
    constructor
    · positivity
    · rw [div_lt_one] <;> linarith
  rw [hf]
  simp

theorem qmod360_add_360 (a : ℚ) : qmod360 (a + 360) = qmod360 a := by
  unfold qmod360
  have h : (a + 360) / 360 = a / 360 + 1 := by ring
  rw [h, Int.floor_add_one]
  push_cast
  ring

theorem classifyOri_some (a : ℚ) : classifyOri (some a) = classifyAngle (qmod360 a) :=
  rfl

theorem classifyAngle_eq_E_iff (m : ℚ) :
    classifyAngle m = Dir.E ↔ m ≤ 45 ∨ 315 ≤ m := by
  unfold classifyAngle
  split_ifs with h1 h2 h3 <;> simp [h1]

theorem classifyAngle_eq_N_iff (m : ℚ) :
    classifyAngle m = Dir.N ↔ 45 < m ∧ m ≤ 135 := by
  unfold classifyAngle
  split_ifs with h1 h2 h3
  · simp only [reduceCtorEq, false_iff]
    rintro ⟨h4, h5⟩
    rcases h1 with h | h <;> linarith
  · push_neg at h1
    simp only [true_iff]
    exact ⟨h1.1, h2.1⟩
  · simp only [reduceCtorEq, false_iff]
    rintro ⟨h4, h5⟩
    exact h2 ⟨h5, le_of_lt h4⟩
  · simp only [reduceCtorEq, false_iff]
    rintro ⟨h4, h5⟩
    exact h2 ⟨h5, le_of_lt h4⟩

theorem classifyAngle_eq_W_iff (m : ℚ) :
    classifyAngle m = Dir.W ↔ 135 < m ∧ m ≤ 225 := by
  unfold classifyAngle
  split_ifs with h1 h2 h3
  · simp only [reduceCtorEq, false_iff]
    rintro ⟨h4, h5⟩
    rcases h1 with h | h <;> linarith
  · simp only [reduceCtorEq, false_iff]
    rintro ⟨h4, h5⟩
    rcases h2 with ⟨h6, h7⟩
    linarith
  · push_neg at h1 h2
    simp only [true_iff]
    refine ⟨?_, h3.1⟩
    by_contra hc
    push_neg at hc
    linarith [h2 hc]
  · push_neg at h3
    simp only [reduceCtorEq, false_iff]
    rintro ⟨h4, h5⟩
    linarith [h3 h5]

theorem classifyAngle_eq_S_iff (m : ℚ) :
    classifyAngle m = Dir.S ↔ 225 < m ∧ m < 315 := by
  unfold classifyAngle
  split_ifs with h1 h2 h3
  · simp only [reduceCtorEq, false_iff]
    rintro ⟨h4, h5⟩
    rcases h1 with h | h <;> linarith
  · simp only [reduceCtorEq, false_iff]
    rintro ⟨h4, h5⟩
    rcases h2 with ⟨h6, h7⟩
    linarith
  · simp only [reduceCtorEq, false_iff]
    rintro ⟨h4, h5⟩
    rcases h3 with ⟨h6, h7⟩
    linarith
  · push_neg at h1 h2 h3
    simp only [true_iff]
    refine ⟨?_, h1.2⟩
    by_contra hc
    push_neg at hc
    have h4 : m < 135 := h3 hc
    have h5 : m < 45 := h2 (le_of_lt h4)
    linarith [h1.1]

/-- C1: for a defined orientation the classifier first reduces the angle
modulo 360 and then assigns East iff the reduced angle is <= 45 or >= 315,
North iff it lies in (45, 135], West iff it lies in (135, 225], and South
iff it lies in (225, 315); the classification is periodic with period 360,
and the orientations 10, 80, 170 and 260 degrees classify to E, N, W and S
respectively. -/
theorem classify_orientation_buckets (a : ℚ) :
    (classifyOri (some a) = Dir.E ↔ qmod360 a ≤ 45 ∨ 315 ≤ qmod360 a) ∧
    (classifyOri (some a) = Dir.N ↔ 45 < qmod360 a ∧ qmod360 a ≤ 135) ∧
    (classifyOri (some a) = Dir.W ↔ 135 < qmod360 a ∧ qmod360 a ≤ 225) ∧
    (classifyOri (some a) = Dir.S ↔ 225 < qmod360 a ∧ qmod360 a < 315) ∧
    classifyOri (some (a + 360)) = classifyOri (some a) ∧
    classifyOri (some 10) = Dir.E ∧ classifyOri (some 80) = Dir.N ∧
    classifyOri (some 170) = Dir.W ∧ classifyOri (some 260) = Dir.S := by
  have hv : ∀ x : ℚ, 0 ≤ x → x < 360 → classifyOri (some x) = classifyAngle x := by
    intro x hx0 hx1
    rw [classifyOri_some, qmod360_eq_self hx0 hx1]
  refine ⟨classifyAngle_eq_E_iff _, classifyAngle_eq_N_iff _,
    classifyAngle_eq_W_iff _, classifyAngle_eq_S_iff _, ?_, ?_, ?_, ?_, ?_⟩
  · rw [classifyOri_some, classifyOri_some, qmod360_add_360]
  · rw [hv 10 (by norm_num) (by norm_num)]
    unfold classifyAngle
    norm_num
  · rw [hv 80 (by norm_num) (by norm_num)]
    unfold classifyAngle
    norm_num
  · rw [hv 170 (by norm_num) (by norm_num)]
    unfold classifyAngle
    norm_num
  · rw [hv 260 (by norm_num) (by norm_num)]
    unfold classifyAngle
    norm_num

/-- Error taxonomy of the embedded fragment: `PortOrientationError` from
port.py, `RadiusViolation` from the cross-section radius check, and generic
`ValueError`s raised by `Port.__init__` and `cutback_loss`. -/
inductive GfError where
  | portOrientationError
  | radiusViolation
  | valueError (msg : String)
deriving DecidableEq, Repr

deriving instance DecidableEq for Except

/-- Port as seen by the classification and renaming code of port.py: a
geometric record with a name.  `pid` stands for Python object identity and
lets the pure embedding express in-place mutation of one port in a list. -/
structure GPort where
  pid : ℕ
  name : String
  orientation : Option ℚ
  x : ℚ
  y : ℚ
deriving DecidableEq, Repr

/-- Valid cardinal-direction arguments of `get_ports_facing` (port.py). -/
def valid_directions : List String := ["E", "N", "W", "S"]

/-- Embedding of `get_ports_facing` (port.py lines 429-455): raises
`PortOrientationError` for a direction outside {E,N,W,S}, otherwise buckets
every port (a `None` orientation is treated as angle 0) and returns the
requested bucket, which may be empty. -/
def get_ports_facing (ports : List GPort) (direction : String) :
    Except GfError (List GPort) :=
  if direction ∈ valid_directions then
    .ok (ports.filter (fun p => (classifyFacing p.orientation).str == direction))
  else
    .error .portOrientationError

/-- Port record produced by `Port.__init__` (port.py lines 111-158). -/
structure BPort where
  name : String
  orientation : Option ℚ
  center : ℚ × ℚ
  width : ℚ
  layer : ℕ
  port_type : String
deriving DecidableEq, Repr

/-- Cross-section record: width, layer and optional minimum bend radius
(gdsfactory cross_section recipe, as consumed by port.py and
bend_euler.py). -/
structure CrossSec where
  width : ℚ
  layer : ℕ
  radius : Option ℚ
deriving DecidableEq, Repr

/-- Embedding of `Port.__init__` (port.py lines 111-158): the orientation is
reduced modulo 360 when truthy; it is an error when cross_section and layer
are both absent, or when cross_section and width are both absent; layer and
width fall back to the cross-section; a width strictly below zero is
rejected, any width >= 0 is accepted. -/
def mkPort (name : String) (orientation : Option ℚ) (center : ℚ × ℚ)
    (width? : Option ℚ) (layer? : Option ℕ) (cs? : Option CrossSec)
    (port_type : String := "optical") : Except GfError BPort :=
  let orientation := match orientation with
    | some a => if a ≠ 0 then some (qmod360 a) else some a
    | none => none
  if cs?.isNone ∧ layer?.isNone then
    .error (.valueError "You need to define Port cross_section or layer")
  else if cs?.isNone ∧ width?.isNone then
    .error (.valueError "You need Port to define cross_section or width")
  else
    let layer : ℕ := match layer?, cs? with
      | some l, _ => l
      | none, some cs => cs.layer
      | none, none => 0
    match width?, cs? with
    | some w, _ =>
      if w < 0 then .error (.valueError "Port width must be >=0")
      else .ok ⟨name, orientation, center, w, layer, port_type⟩
    | none, some cs =>
      if cs.width < 0 then .error (.valueError "Port width must be >=0")
      else .ok ⟨name, orientation, center, cs.width, layer, port_type⟩
    | none, none =>
      .error (.valueError "You need Port to define cross_section or width")

/-- C4 counterexample: the claim says every classification operation places a
port with undefined orientation in the South bucket, but the classifier of
`get_ports_facing` treats a `None` orientation as angle 0 and places the
port in the East bucket. -/
theorem classifyFacing_none_is_east :
    classifyFacing none = Dir.E ∧ classifyFacing none ≠ Dir.S := by
  constructor <;> decide

/-- C4 amended: `rename_ports_by_orientation` classifies a port with
undefined orientation as South, while `get_ports_facing` treats the
undefined orientation as angle 0 and classifies the port as East; a
concrete such port is returned by `get_ports_facing` for direction E and
not for direction S, and no error is raised. -/
theorem classify_none_buckets :
    classifyOri none = Dir.S ∧ classifyFacing none = Dir.E ∧
    get_ports_facing [⟨0, "p0", none, 0, 0⟩] "E" = .ok [⟨0, "p0", none, 0, 0⟩] ∧
    get_ports_facing [⟨0, "p0", none, 0, 0⟩] "S" = .ok [] := by
  refine ⟨rfl, by decide, ?_, ?_⟩ <;> decide

/-- C5 counterexample: the claim says `get_ports_facing` raises
`PortOrientationError` when no ports are found in the requested direction,
but on an empty port list and direction E it returns an empty list and no
error. -/
theorem get_ports_facing_empty_no_error :
    get_ports_facing [] "E" = .ok [] ∧
    ∀ e, get_ports_facing [] "E" ≠ .error e := by
  constructor
  · decide
  · intro e h
    rw [show get_ports_facing [] "E" = .ok [] from by decide] at h
    exact Except.noConfusion h

/-- C5 amended: `get_ports_facing` raises `PortOrientationError` exactly when
the requested direction is not one of E, N, W, S; for a valid direction it
returns the (possibly empty) list of ports facing that direction without
raising. -/
theorem get_ports_facing_error_iff (ports : List GPort) (d : String) :
    (d ∉ valid_directions →
      get_ports_facing ports d = .error .portOrientationError) ∧
    (d ∈ valid_directions →
      get_ports_facing ports d =
        .ok (ports.filter (fun p => (classifyFacing p.orientation).str == d))) := by
  constructor
  · intro h
    unfold get_ports_facing
    rw [if_neg h]
  · intro h
    unfold get_ports_facing
    rw [if_pos h]

/-- Witness for `get_ports_facing_error_iff`: direction X is rejected with
`PortOrientationError` while direction E on an empty list returns an empty
list. -/
theorem get_ports_facing_error_iff_witness :
    get_ports_facing [] "X" = .error .portOrientationError ∧
    get_ports_facing [] "E" = .ok [] :=
  ⟨(get_ports_facing_error_iff [] "X").1 (by decide),
   (get_ports_facing_error_iff [] "E").2 (by decide)⟩

/-- C6 counterexample: the claim says constructing a Port with non-positive
width fails, but `Port.__init__` only rejects width < 0: a width of exactly
0 is accepted and yields a port of width 0. -/
theorem mkPort_zero_width_ok :
    mkPort "p1" none (0, 0) (some 0) (some 7) none =
      .ok ⟨"p1", none, (0, 0), 0, 7, "optical"⟩ := by
  decide

/-- C6 amended: `Port.__init__` enforces width >= 0: a negative width is
rejected with a ValueError, and any width >= 0 (including 0) is accepted,
the resulting port carrying exactly that nonnegative width. -/
theorem mkPort_width_nonneg (name : String) (ori : Option ℚ) (c : ℚ × ℚ)
    (w : ℚ) (l : ℕ) :
    (w < 0 → mkPort name ori c (some w) (some l) none =
      .error (.valueError "Port width must be >=0")) ∧
    (0 ≤ w → ∃ p, mkPort name ori c (some w) (some l) none = .ok p ∧
      p.width = w ∧ 0 ≤ p.width) := by
  constructor
  · intro h
    unfold mkPort
    simp [if_pos h]
  · intro h
    unfold mkPort
    rw [if_neg (by simp), if_neg (by simp)]
    simp only [if_neg (not_lt.mpr h)]
    exact ⟨_, rfl, rfl, h⟩

/-- Witness for `mkPort_width_nonneg` at width -1 (rejected) and width 1/2
(accepted). -/
theorem mkPort_width_nonneg_witness :
    mkPort "a" none (0, 0) (some (-1)) (some 1) none =
      .error (.valueError "Port width must be >=0") ∧
    ∃ p, mkPort "a" none (0, 0) (some (1/2)) (some 1) none = .ok p ∧
      p.width = 1/2 ∧ 0 ≤ p.width :=
  ⟨(mkPort_width_nonneg "a" none (0, 0) (-1) 1).1 (by norm_num),
   (mkPort_width_nonneg "a" none (0, 0) (1/2) 1).2 (by norm_num)⟩

/-- Port as seen by `sort_ports_clockwise` / `sort_ports_counter_clockwise`
(port.py lines 245-330): these read the kfactory quantized angle `p.angle`,
an integer number of 90-degree turns, and the coordinates. -/
structure KPort where
  pid : ℕ
  name : String
  angle : ℕ
  x : ℚ
  y : ℚ
deriving DecidableEq, Repr

/-- Direction bucket of a kfactory port, computed from `p.angle * 90` with
the same if/elif chain as in `sort_ports_clockwise` (port.py lines
262-271). -/
def KPort.dir (p : KPort) : Dir := classifyAngle ((p.angle * 90 : ℕ) : ℚ)

/-- Embedding of `sort_ports_clockwise` (port.py lines 245-286): buckets the
ports by direction, sorts east ports north to south (key -y), north ports
west to east (key x), west ports south to north (key y), south ports east
to west (key -x), and returns west ++ north ++ east ++ south.  Python's
stable `list.sort` is modelled by the stable `List.mergeSort`. -/
def sort_ports_clockwise (ports : List KPort) : List KPort :=
  let east_ports :=
    (ports.filter (fun p => p.dir == Dir.E)).mergeSort
      (fun a b => decide (-a.y ≤ -b.y))
  let north_ports :=
    (ports.filter (fun p => p.dir == Dir.N)).mergeSort
      (fun a b => decide (a.x ≤ b.x))
  let west_ports :=
    (ports.filter (fun p => p.dir == Dir.W)).mergeSort
      (fun a b => decide (a.y ≤ b.y))
  let south_ports :=
    (ports.filter (fun p => p.dir == Dir.S)).mergeSort
      (fun a b => decide (-a.x ≤ -b.x))
  west_ports ++ north_ports ++ east_ports ++ south_ports

/-- Embedding of `sort_ports_counter_clockwise` (port.py lines 289-330):
east ports south to north (key y), north ports east to west (key -x), west
ports north to south (key -y), south ports west to east (key x), returned
as east ++ north ++ west ++ south. -/
def sort_ports_counter_clockwise (ports : List KPort) : List KPort :=
  let east_ports :=
    (ports.filter (fun p => p.dir == Dir.E)).mergeSort
      (fun a b => decide (a.y ≤ b.y))
  let north_ports :=
    (ports.filter (fun p => p.dir == Dir.N)).mergeSort
      (fun a b => decide (-a.x ≤ -b.x))
  let west_ports :=
    (ports.filter (fun p => p.dir == Dir.W)).mergeSort
      (fun a b => decide (-a.y ≤ -b.y))
  let south_ports :=
    (ports.filter (fun p => p.dir == Dir.S)).mergeSort
      (fun a b => decide (a.x ≤ b.x))
  east_ports ++ north_ports ++ west_ports ++ south_ports

theorem pairwise_mergeSort_key {α : Type} (key : α → ℚ) (l : List α) :
    (l.mergeSort (fun a b => decide (key a ≤ key b))).Pairwise
      (fun a b => key a ≤ key b) := by
  have h : (l.mergeSort (fun a b => decide (key a ≤ key b))).Pairwise
      (fun a b => decide (key a ≤ key b) = true) :=
    List.sorted_mergeSort
      (by
        intro a b c hab hbc
        simp only [decide_eq_true_eq] at *
        linarith)
      (by
        intro a b
        simp only [Bool.or_eq_true, decide_eq_true_eq]
        exact le_total _ _)
      l
  exact h.imp (by intro a b hab; simpa using hab)

/-- C3: the clockwise sort decomposes into four consecutive blocks, one per
bucket in the order W, N, E, S, where each block is a permutation of the
ports of that bucket and is sorted ascending by y (W), ascending by x (N),
descending by y (E), descending by x (S); the counter-clockwise sort
decomposes in the order E, N, W, S with east ascending by y, north
descending by x, west descending by y, south ascending by x. -/
theorem sort_ports_blocks (ports : List KPort) :
    (∃ w n e s,
      sort_ports_clockwise ports = w ++ n ++ e ++ s ∧
      w.Perm (ports.filter (fun p => p.dir == Dir.W)) ∧
        w.Pairwise (fun a b => a.y ≤ b.y) ∧
      n.Perm (ports.filter (fun p => p.dir == Dir.N)) ∧
        n.Pairwise (fun a b => a.x ≤ b.x) ∧
      e.Perm (ports.filter (fun p => p.dir == Dir.E)) ∧
        e.Pairwise (fun a b => b.y ≤ a.y) ∧
      s.Perm (ports.filter (fun p => p.dir == Dir.S)) ∧
        s.Pairwise (fun a b => b.x ≤ a.x)) ∧
    (∃ e n w s,
      sort_ports_counter_clockwise ports = e ++ n ++ w ++ s ∧
      e.Perm (ports.filter (fun p => p.dir == Dir.E)) ∧
        e.Pairwise (fun a b => a.y ≤ b.y) ∧
      n.Perm (ports.filter (fun p => p.dir == Dir.N)) ∧
        n.Pairwise (fun a b => b.x ≤ a.x) ∧
      w.Perm (ports.filter (fun p => p.dir == Dir.W)) ∧
        w.Pairwise (fun a b => b.y ≤ a.y) ∧
      s.Perm (ports.filter (fun p => p.dir == Dir.S)) ∧
        s.Pairwise (fun a b => a.x ≤ b.x)) := by
  constructor
  · refine
      ⟨(ports.filter (fun p : KPort => p.dir == Dir.W)).mergeSort
          (fun a b => decide (a.y ≤ b.y)),
        (ports.filter (fun p : KPort => p.dir == Dir.N)).mergeSort
          (fun a b => decide (a.x ≤ b.x)),
        (ports.filter (fun p : KPort => p.dir == Dir.E)).mergeSort
          (fun a b => decide (-a.y ≤ -b.y)),
        (ports.filter (fun p : KPort => p.dir == Dir.S)).mergeSort
          (fun a b => decide (-a.x ≤ -b.x)),
        rfl, List.mergeSort_perm _ _, ?_, List.mergeSort_perm _ _, ?_,
        List.mergeSort_perm _ _, ?_, List.mergeSort_perm _ _, ?_⟩
    · exact pairwise_mergeSort_key (fun p : KPort => p.y) _
    · exact pairwise_mergeSort_key (fun p : KPort => p.x) _
    · exact (pairwise_mergeSort_key (fun p : KPort => -p.y) _).imp
        (by intro a b hab; linarith)
    · exact (pairwise_mergeSort_key (fun p : KPort => -p.x) _).imp
        (by intro a b hab; linarith)
  · refine
      ⟨(ports.filter (fun p : KPort => p.dir == Dir.E)).mergeSort
          (fun a b => decide (a.y ≤ b.y)),
        (ports.filter (fun p : KPort => p.dir == Dir.N)).mergeSort
          (fun a b => decide (-a.x ≤ -b.x)),
        (ports.filter (fun p : KPort => p.dir == Dir.W)).mergeSort
          (fun a b => decide (-a.y ≤ -b.y)),
        (ports.filter (fun p : KPort => p.dir == Dir.S)).mergeSort
          (fun a b => decide (a.x ≤ b.x)),
        rfl, List.mergeSort_perm _ _, ?_, List.mergeSort_perm _ _, ?_,
        List.mergeSort_perm _ _, ?_, List.mergeSort_perm _ _, ?_⟩
    · exact pairwise_mergeSort_key (fun p : KPort => p.y) _
    · exact (pairwise_mergeSort_key (fun p : KPort => -p.x) _).imp
        (by intro a b hab; linarith)
    · exact (pairwise_mergeSort_key (fun p : KPort => -p.y) _).imp
        (by intro a b hab; linarith)
    · exact pairwise_mergeSort_key (fun p : KPort => p.x) _

/-- Name-free projection of a port: the fields read by the classification
and sorting code of `rename_ports_by_orientation` (geometry plus object
identity), everything except the mutable name. -/
structure PortCore where
  pid : ℕ
  orientation : Option ℚ
  x : ℚ
  y : ℚ
deriving DecidableEq, Repr

/-- Projection dropping the name. -/
def GPort.core (p : GPort) : PortCore := ⟨p.pid, p.orientation, p.x, p.y⟩

/-- Per-side sorting of one direction bucket as done by
`_rename_ports_facing_side` (port.py lines 468-484): E and W buckets are
sorted by x then (stably) by y; S and N buckets by y then (stably) by x.
Python's two successive stable `list.sort` calls become two successive
stable `List.mergeSort` calls. -/
def sideSort (d : Dir) (l : List PortCore) : List PortCore :=
  match d with
  | .E | .W =>
    (l.mergeSort (fun a b => decide (a.x ≤ b.x))).mergeSort
      (fun a b => decide (a.y ≤ b.y))
  | .S | .N =>
    (l.mergeSort (fun a b => decide (a.y ≤ b.y))).mergeSort
      (fun a b => decide (a.x ≤ b.x))

/-- New-name assignment computed by `rename_ports_by_orientation` with the
default `_rename_ports_facing_side` function (port.py lines 570-625):
ports are bucketed by `classifyOri`, each bucket is side-sorted, and the
i-th port of a bucket is named prefix ++ direction ++ i.  The result maps
the port identity to its new name. -/
def assignNames (pfx : String) (cores : List PortCore) : List (ℕ × String) :=
  [Dir.E, Dir.N, Dir.W, Dir.S].flatMap (fun d =>
    let bucket := cores.filter (fun p => classifyOri p.orientation == d)
    ((sideSort d bucket).enum).map
      (fun ip => (ip.2.pid, pfx ++ d.str ++ toString ip.1)))

/-- Application of a computed name assignment to one port: the in-place
`p.name = prefix + direction + str(i)` mutation of the source, expressed
through the port identity. -/
def applyAssign (a : List (ℕ × String)) (p : GPort) : GPort :=
  { p with name := (((a.find? (fun q => q.1 == p.pid)).map Prod.snd).getD p.name) }

/-- Embedding of `rename_ports_by_orientation` with the default
`_rename_ports_facing_side` renaming function and no port selection filter
(port.py lines 570-625): computes the bucket/sort name assignment from the
port geometry and applies it to every port, leaving geometry unchanged. -/
def rename_ports_by_orientation (pfx : String) (ports : List GPort) :
    List GPort :=
  ports.map (applyAssign (assignNames pfx (ports.map GPort.core)))

theorem applyAssign_core (a : List (ℕ × String)) (p : GPort) :
    (applyAssign a p).core = p.core :=
  rfl

theorem applyAssign_idem (a : List (ℕ × String)) (p : GPort) :
    applyAssign a (applyAssign a p) = applyAssign a p := by
  unfold applyAssign
  rcases hf : a.find? (fun q => q.1 == p.pid) with _ | q <;> simp [hf]

theorem rename_core (pfx : String) (ports : List GPort) :
    (rename_ports_by_orientation pfx ports).map GPort.core =
      ports.map GPort.core := by
  unfold rename_ports_by_orientation
  rw [List.map_map]
  rfl

/-- C9: renaming ports by orientation is idempotent: a second application
of the same renaming to the already renamed component changes nothing, in
particular the port names after two applications equal the names after
one. -/
theorem rename_ports_idempotent (pfx : String) (ports : List GPort) :
    rename_ports_by_orientation pfx (rename_ports_by_orientation pfx ports) =
      rename_ports_by_orientation pfx ports ∧
    (rename_ports_by_orientation pfx
        (rename_ports_by_orientation pfx ports)).map (fun p => p.name) =
      (rename_ports_by_orientation pfx ports).map (fun p => p.name) := by
  have h : rename_ports_by_orientation pfx
      (rename_ports_by_orientation pfx ports) =
      rename_ports_by_orientation pfx ports := by
    unfold rename_ports_by_orientation
    rw [show List.map GPort.core
        (List.map (applyAssign (assignNames pfx (List.map GPort.core ports)))
          ports) = List.map GPort.core ports from by rw [List.map_map]; rfl]
    rw [List.map_map]
    exact List.map_congr_left (fun p _ => applyAssign_idem _ p)
  exact ⟨h, by rw [h]⟩

/-- Python truthiness of an optional integer: None and 0 are falsy. -/
def truthyN (o : Option ℕ) : Bool :=
  match o with
  | some n => n != 0
  | none => false

/-- Python float-to-int conversion, truncation toward zero. -/
def pyInt (q : ℚ) : ℤ := if 0 ≤ q then ⌊q⌋ else -⌊-q⌋

/-- Embedding of the row/column derivation of `cutback_loss`
(cutback_loss.py lines 14-64), returning the (rows, cols) pair passed to
each cutback call: a truthy rows together with a truthy cols is rejected;
with rows absent, rows = (loss / loss_dB / cols) // 2 * 2 + 1; with cols
absent, cols = int(loss / loss_dB / rows); otherwise rejected.  Dividing by
an absent cols is Python's TypeError. -/
def cutback_loss (loss : List ℚ) (loss_dB : ℚ) (cols : Option ℕ)
    (rows : Option ℕ) : Except GfError (List (ℤ × ℤ)) :=
  if truthyN rows ∧ truthyN cols then
    .error (.valueError "Specify either cols or rows")
  else if rows = none then
    match cols with
    | some c =>
      .ok (loss.map (fun l => (⌊l / loss_dB / (c : ℚ) / 2⌋ * 2 + 1, (c : ℤ))))
    | none => .error (.valueError "unsupported operand type")
  else if cols = none then
    match rows with
    | some r =>
      .ok (loss.map (fun l => ((r : ℤ), pyInt (l / loss_dB / (r : ℚ)))))
    | none => .error (.valueError "Specify either cols or rows")
  else
    .error (.valueError "Specify either cols or rows")

/-- C8: with a fixed column count and no row count given, `cutback_loss`
derives rows = floor((loss / loss_dB / cols) / 2) * 2 + 1 for every target
loss, which is always odd; for the sample losses 1, 2, 3 dB at 0.01 dB per
component and 4 columns the derived row counts are 25, 51 and 75. -/
theorem cutback_loss_rows_odd (loss : List ℚ) (loss_dB : ℚ) (c : ℕ) :
    cutback_loss loss loss_dB (some c) none =
      .ok (loss.map
        (fun l => (⌊l / loss_dB / (c : ℚ) / 2⌋ * 2 + 1, (c : ℤ)))) ∧
    (∀ l : ℚ, Odd (⌊l / loss_dB / (c : ℚ) / 2⌋ * 2 + 1)) ∧
    cutback_loss [1, 2, 3] (1 / 100) (some 4) none =
      .ok [(25, 4), (51, 4), (75, 4)] := by
  refine ⟨?_, ?_, ?_⟩
  · simp [cutback_loss, truthyN]
  · intro l
    exact ⟨⌊l / loss_dB / (c : ℚ) / 2⌋, by ring⟩
  · simp [cutback_loss, truthyN]
    norm_num

/-- Result of a `bend_euler` call: the nominal radius, the reported
`info["radius_min"]`, and whether the degenerate `wire_corner` fallback was
taken (bend_euler.py lines 63-96). -/
structure BendInfo where
  radius : ℚ
  radius_min : ℚ
  wire_corner : Bool
deriving DecidableEq, Repr

/-- Modelled from the spec: `CrossSection.validate_radius` lives in
gdsfactory/cross_section.py, which is not under src/.  Per the spec (section
4.3 and Scenario C) the call fails with `RadiusViolation` when the radius is
smaller than the cross-section's declared minimum bend radius, and succeeds
otherwise (in particular when no minimum is declared). -/
def CrossSec.validate_radius (x : CrossSec) (radius : ℚ) :
    Except GfError Unit :=
  match x.radius with
  | some rmin => if radius < rmin then .error .radiusViolation else .ok ()
  | none => .ok ()

/-- Python's `radius or x.radius` (bend_euler.py line 64): a `None` or 0.0
radius argument falls back to the cross-section radius. -/
def pyOr (a b : Option ℚ) : Option ℚ :=
  match a with
  | some v => if v ≠ 0 then some v else b
  | none => b

/-- Embedding of the control flow of `bend_euler` (bend_euler.py lines
16-96): the radius falls back to the cross-section radius; if still `None`
the degenerate `wire_corner` is returned; otherwise an Euler bend is built
and, unless `allow_min_radius_violation` is set, the requested radius is
validated against the cross-section minimum.  The geometry of
`gdsfactory.path.euler` (not under src/) is abstracted by the parameter
`eulerRmin`, giving the achieved minimum radius reported as
`info["radius_min"]` as a function of the requested radius; per the
docstring it equals the requested radius when `with_arc_floorplan` is
False, and is at most the requested radius in general. -/
def bend_euler (eulerRmin : ℚ → ℚ) (radius : Option ℚ) (x : CrossSec)
    (allow_min_radius_violation : Bool) : Except GfError BendInfo :=
  match pyOr radius x.radius with
  | none => .ok ⟨0, 0, true⟩
  | some r =>
    let b : BendInfo := ⟨r, eulerRmin r, false⟩
    if allow_min_radius_violation then .ok b
    else
      match x.validate_radius r with
      | .ok _ => .ok b
      | .error e => .error e

/-- C2: requesting a bend whose radius is below the cross-section's declared
minimum raises `RadiusViolation` when `allow_min_radius_violation` is not
set, while the same call with the flag set succeeds and returns a bend whose
reported `radius_min` is below the declared minimum (the achieved minimum
radius of the Euler path being at most the requested radius). -/
theorem bend_euler_radius_violation (eulerRmin : ℚ → ℚ) (w : ℚ) (l : ℕ)
    (r rmin : ℚ) (h0 : 0 < r) (hlt : r < rmin) (hR : eulerRmin r ≤ r) :
    bend_euler eulerRmin (some r) ⟨w, l, some rmin⟩ false =
      .error .radiusViolation ∧
    ∃ b, bend_euler eulerRmin (some r) ⟨w, l, some rmin⟩ true = .ok b ∧
      b.radius_min < rmin ∧ b.wire_corner = false := by
  constructor
  · simp [bend_euler, pyOr, CrossSec.validate_radius, ne_of_gt h0, hlt]
  · refine ⟨⟨r, eulerRmin r, false⟩, ?_, ?_, rfl⟩
    · simp [bend_euler, pyOr, ne_of_gt h0]
    · exact lt_of_le_of_lt hR hlt

/-- Witness for `bend_euler_radius_violation`: requested radius 1 below the
declared minimum 2, with the identity as achieved-minimum-radius map. -/
theorem bend_euler_radius_violation_witness :
    bend_euler (fun t => t) (some 1) ⟨1, 0, some 2⟩ false =
      .error .radiusViolation ∧
    ∃ b, bend_euler (fun t => t) (some 1) ⟨1, 0, some 2⟩ true = .ok b ∧
      b.radius_min < 2 ∧ b.wire_corner = false :=
  bend_euler_radius_violation (fun t => t) 1 0 1 2 (by norm_num)
    (by norm_num) (by norm_num)

/-- C7 counterexample: with radius `None` and a cross-section whose radius
is 10, `bend_euler` does not produce the wire-corner: it falls back to the
cross-section radius and returns a curved bend of radius 10. -/
theorem bend_euler_none_radius_counterexample :
    bend_euler (fun t => t) none ⟨1, 0, some 10⟩ false = .ok ⟨10, 10, false⟩ ∧
    ¬ ∃ b, bend_euler (fun t => t) none ⟨1, 0, some 10⟩ false = .ok b ∧
      b.wire_corner = true := by
  have h : bend_euler (fun t => t) none ⟨1, 0, some 10⟩ false =
      .ok ⟨10, 10, false⟩ := by decide
  refine ⟨h, ?_⟩
  rintro ⟨b, hb, hw⟩
  rw [h] at hb
  injection hb with hb
  rw [← hb] at hw
  simp at hw

/-- C7 amended: a `None` radius argument falls back to the cross-section's
radius: the degenerate wire-corner is produced exactly when the
cross-section radius is also `None`; when the cross-section declares a
radius, a curved bend with that radius (and the Euler path's achieved
minimum radius) is returned instead. -/
theorem bend_euler_none_radius_fallback (eulerRmin : ℚ → ℚ) (w : ℚ) (l : ℕ)
    (allow : Bool) (r : ℚ) :
    bend_euler eulerRmin none ⟨w, l, none⟩ allow = .ok ⟨0, 0, true⟩ ∧
    bend_euler eulerRmin none ⟨w, l, some r⟩ allow =
      .ok ⟨r, eulerRmin r, false⟩ := by
  constructor
  · cases allow <;> rfl
  · cases allow <;>
      simp [bend_euler, pyOr, CrossSec.validate_radius, lt_irrefl]

/-- Successive grown sizes built by the first loop of `pad` (pad.py lines
46-49): each cladding offset grows both dimensions of the running size by
twice the offset, and every intermediate size is recorded. -/
def growSizes (size : ℚ × ℚ) : List ℚ → List (ℚ × ℚ)
  | [] => []
  | o :: os =>
    let s := (size.1 + 2 * o, size.2 + 2 * o)
    s :: growSizes s os

/-- Embedding of the size used for the exposed "pad" port of `pad` (pad.py
lines 45-59).  When both bbox_layers and bbox_offsets are truthy
(non-empty), the first loop leaves the loop variable `size` at the last
grown size, and the second loop `for layer, size in zip(bbox_layers,
sizes)` re-binds `size` to the second component of each zipped pair, so
after it `size` is the grown size paired with the last bbox layer.  The
port width is then size[1] for port_orientation 0 or 180 and size[0]
otherwise. -/
def pad_port_width (size : ℚ × ℚ) (bbox_layers : List ℕ)
    (bbox_offsets : List ℚ) (port_orientation : ℚ) : ℚ :=
  let final :=
    if bbox_layers ≠ [] ∧ bbox_offsets ≠ [] then
      let sizes := growSizes size bbox_offsets
      let sizeAfterBuild := sizes.getLast?.getD size
      (bbox_layers.zip sizes).foldl (fun _ ls => ls.2) sizeAfterBuild
    else size
  if port_orientation = 0 ∨ port_orientation = 180 then final.2 else final.1

theorem growSizes_cons (size : ℚ × ℚ) (o : ℚ) (os : List ℚ) :
    growSizes size (o :: os) =
      (size.1 + 2 * o, size.2 + 2 * o) ::
        growSizes (size.1 + 2 * o, size.2 + 2 * o) os :=
  rfl

theorem pad_zip_loop (bl : List ℕ) :
    ∀ (bo : List ℚ) (size init : ℚ × ℚ), bl ≠ [] → bo ≠ [] →
      (bl.zip (growSizes size bo)).foldl (fun _ ls => ls.2) init =
        (size.1 + 2 * (bo.take (min bl.length bo.length)).sum,
         size.2 + 2 * (bo.take (min bl.length bo.length)).sum) := by
  induction bl with
  | nil => intro bo size init hbl hbo; exact absurd rfl hbl
  | cons l bls ih =>
    intro bo size init hbl hbo
    rcases bo with _ | ⟨o, os⟩
    · exact absurd rfl hbo
    rcases bls with _ | ⟨l2, bls2⟩
    · simp [growSizes, List.zip_cons_cons]
    rcases os with _ | ⟨o2, os2⟩
    · simp [growSizes, List.zip_cons_cons]
    have h := ih (o2 :: os2) (size.1 + 2 * o, size.2 + 2 * o)
      (size.1 + 2 * o, size.2 + 2 * o) (by simp) (by simp)
    rw [growSizes_cons, List.zip_cons_cons, List.foldl_cons]
    dsimp only
    rw [h]
    dsimp only
    simp only [List.length_cons, List.take_succ_cons, List.sum_cons,
      Nat.succ_min_succ, Prod.mk.injEq]
    constructor <;> ring

/-- C10 counterexample: with one bbox layer and two cladding offsets 1 and
10 on a 100 by 100 pad with port_orientation 0, the exposed pad port width
is 102 (the size grown by the first offset only, since the zip in pad.py
pairs grown sizes with bbox layers and its loop variable shadows `size`),
not 122, the final entry of the grown-size list. -/
theorem pad_port_width_counterexample :
    pad_port_width (100, 100) [7] [1, 10] 0 = 102 ∧
    (growSizes (100, 100) [1, 10]).getLast?.getD (100, 100) = (122, 122) ∧
    pad_port_width (100, 100) [7] [1, 10] 0 ≠ 122 := by
  have h : pad_port_width (100, 100) [7] [1, 10] 0 = 102 := by
    norm_num [pad_port_width, growSizes, List.zip_cons_cons]
    simp
  refine ⟨h, by norm_num [growSizes], by rw [h]; norm_num⟩

/-- C10 amended: with both bbox_layers and bbox_offsets non-empty, the
exposed pad port width equals the nominal dimension (size[1] for
port_orientation 0 or 180, size[0] otherwise) grown by twice the sum of the
first min(len(bbox_layers), len(bbox_offsets)) cladding offsets; in
particular it is the fully grown last entry exactly when there are at least
as many bbox layers as offsets; with no bbox layers the width is the
nominal dimension. -/
theorem pad_port_width_formula (size : ℚ × ℚ) (bl : List ℕ) (bo : List ℚ)
    (po : ℚ) (hbl : bl ≠ []) (hbo : bo ≠ []) :
    pad_port_width size bl bo po =
      (if po = 0 ∨ po = 180 then size.2 else size.1) +
        2 * ((bo.take (min bl.length bo.length)).sum) ∧
    (bo.length ≤ bl.length →
      pad_port_width size bl bo po =
        (if po = 0 ∨ po = 180 then size.2 else size.1) + 2 * bo.sum) ∧
    pad_port_width size [] bo po =
      (if po = 0 ∨ po = 180 then size.2 else size.1) := by
  have hcond : bl ≠ [] ∧ bo ≠ [] := ⟨hbl, hbo⟩
  have hmain : pad_port_width size bl bo po =
      (if po = 0 ∨ po = 180 then size.2 else size.1) +
        2 * ((bo.take (min bl.length bo.length)).sum) := by
    simp only [pad_port_width]
    rw [if_pos hcond, pad_zip_loop bl bo size _ hbl hbo]
    split_ifs <;> rfl
  have hnone : ¬((([] : List ℕ) ≠ []) ∧ bo ≠ []) := by simp
  refine ⟨hmain, ?_, ?_⟩
  · intro hle
    rw [hmain, min_eq_right hle, List.take_length]
  · simp only [pad_port_width]
    rw [if_neg hnone]

/-- Witness for `pad_port_width_formula`: two layers and offsets 1, 10 on a
100 by 100 pad give a pad port of width 122 = 100 + 2 * (1 + 10). -/
theorem pad_port_width_formula_witness :
    pad_port_width (100, 100) [7, 8] [1, 10] 0 = 122 := by
  have h := (pad_port_width_formula (100, 100) [7, 8] [1, 10] 0
    (by decide) (by decide)).2.1 (by decide)
  norm_num at h
  exact h

end Gdsfactory
